import Mathlib

/-!
Shallow embedding of the DS5 camera driver core (`src/ds5.cpp` of the
librealsense repository) and proofs about its specified behaviour.

Conventions of the embedding:
* machine integers are modelled as `Nat` / `Int` (no overflow occurs in the
  modelled code paths: ROI coordinates are 16-bit values copied verbatim,
  notification codes are compared for equality only);
* IEEE floats are modelled as rationals (`ℚ`); the modelled operations are
  sign flips, copies and fixed products whose algebraic structure is what the
  claims are about;
* the hardware command channel (`hw_monitor::send`) is modelled as a pure
  response function `command → List Nat` together with an explicit log of the
  commands issued, threaded through the state;
* C++ exceptions are modelled with `Except`.
-/

namespace DS5

/-- Stream identifiers (subset of `rs2_stream` used by `ds5.cpp`). -/
inductive rs2_stream where
  | RS2_STREAM_DEPTH
  | RS2_STREAM_INFRARED
  | RS2_STREAM_INFRARED2
  | RS2_STREAM_FISHEYE
  | RS2_STREAM_COLOR
  | RS2_STREAM_ACCEL
  | RS2_STREAM_GYRO
deriving DecidableEq, Repr

/-- Region of interest `{min_x, min_y, max_x, max_y}` in sensor pixel
coordinates (fields are 16-bit unsigned values in the hardware encoding,
modelled as `Nat`). -/
structure region_of_interest where
  min_x : Nat
  min_y : Nat
  max_x : Nat
  max_y : Nat
deriving DecidableEq, Repr

/-- Firmware command opcodes used by `ds5.cpp` (`ds::fw_cmd`). -/
inductive fw_cmd where
  | GETINTCAL
  | MMER
  | GET_EXTRINSICS
  | GVD
  | UAMG
  | HWRST
  | GLD
  | SETAEROI
  | GETAEROI
deriving DecidableEq, Repr

/-- A hardware-monitor command: opcode plus up to four numeric parameters
(unused parameters are zero, as in the C++ `command` constructor). -/
structure command where
  cmd : fw_cmd
  param1 : Nat
  param2 : Nat
  param3 : Nat
  param4 : Nat
deriving DecidableEq, Repr

/-- Notification category. `ds5.cpp` only ever produces
`RS2_NOTIFICATION_CATEGORY_HARDWARE_ERROR`; the constructor list is the one of
the public enum restricted to what the file mentions. -/
inductive rs2_notification_category where
  | RS2_NOTIFICATION_CATEGORY_HARDWARE_ERROR
deriving DecidableEq, Repr

/-- Log severities used by the DS5 notification decoder. -/
inductive rs2_log_severity where
  | RS2_LOG_SEVERITY_NONE
  | RS2_LOG_SEVERITY_ERROR
deriving DecidableEq, Repr

/-- Modelled from the spec: the notification record
`{category, raw_code, severity, message}` (§3 of the spec); the C++ struct is
declared outside `src/`. Field order matches the braced initializers in
`ds5_notification_decoder::decode`. -/
structure notification where
  category : rs2_notification_category
  raw_code : Int
  severity : rs2_log_severity
  message : String
deriving DecidableEq, Repr

/-- Modelled from the spec: numeric code of the `hot_laser_power_reduce`
fault (enum `ds::ds5_notifications_types`, declared in `ds5-private.h`, not
under `src/`); the spec treats the codes as an opaque fixed table of distinct
nonzero values. -/
def ds5_notifications_types.hot_laser_power_reduce : Int := 1

/-- Modelled from the spec: numeric code of the `hot_laser_disable` fault
(enum `ds::ds5_notifications_types`, not under `src/`). -/
def ds5_notifications_types.hot_laser_disable : Int := 2

/-- Modelled from the spec: numeric code of the `flag_B_laser_disable` fault
(enum `ds::ds5_notifications_types`, not under `src/`). -/
def ds5_notifications_types.flag_B_laser_disable : Int := 3

/-- `ds5_notification_decoder::decode` (ds5.cpp lines 774-786): a pure total
mapping from a raw integer code to a notification. The sequence of early
returns in the C++ is an if-else chain. -/
def ds5_notification_decoder.decode (value : Int) : notification :=
  if value = 0 then
    ⟨.RS2_NOTIFICATION_CATEGORY_HARDWARE_ERROR, value, .RS2_LOG_SEVERITY_ERROR, "Success"⟩
  else if value = ds5_notifications_types.hot_laser_power_reduce then
    ⟨.RS2_NOTIFICATION_CATEGORY_HARDWARE_ERROR, value, .RS2_LOG_SEVERITY_ERROR, "Hot laser power reduce"⟩
  else if value = ds5_notifications_types.hot_laser_disable then
    ⟨.RS2_NOTIFICATION_CATEGORY_HARDWARE_ERROR, value, .RS2_LOG_SEVERITY_ERROR, "Hot laser disable"⟩
  else if value = ds5_notifications_types.flag_B_laser_disable then
    ⟨.RS2_NOTIFICATION_CATEGORY_HARDWARE_ERROR, value, .RS2_LOG_SEVERITY_ERROR, "Flag B laser disable"⟩
  else
    ⟨.RS2_NOTIFICATION_CATEGORY_HARDWARE_ERROR, value, .RS2_LOG_SEVERITY_NONE, "Unknown error!"⟩

/-- `ds5_auto_exposure_roi_method::set` (ds5.cpp lines 27-35): encodes the ROI
as the four parameters of a `SETAEROI` command, in the order
`min_y, max_y, min_x, max_x`, and sends it. The model returns the command
handed to `_hw_monitor.send`. -/
def ds5_auto_exposure_roi_method.set (roi : region_of_interest) : command :=
  ⟨.SETAEROI, roi.min_y, roi.max_y, roi.min_x, roi.max_x⟩

/-- The `GETAEROI` query command issued by `ds5_auto_exposure_roi_method::get`
(ds5.cpp line 40). -/
def ds5_auto_exposure_roi_method.get_cmd : command :=
  ⟨.GETAEROI, 0, 0, 0, 0⟩

/-- A 16-bit little-endian word read at byte position `2*i` of a response
buffer (the C++ reinterprets the byte buffer as `uint16_t*` on a
little-endian host): low byte plus 256 times the high byte. -/
def word16_le (res : List Nat) (i : Nat) : Nat :=
  res.getD (2 * i) 0 + 256 * res.getD (2 * i + 1) 0

/-- `ds5_auto_exposure_roi_method::get` (ds5.cpp lines 37-56): decodes the
response bytes of the `GETAEROI` query. Fewer than `4 * sizeof(uint16_t)` = 8
bytes throws `std::runtime_error("Invalid result size!")`; otherwise the first
four consecutive 16-bit little-endian words become
`min_y, max_y, min_x, max_x` in that order. -/
def ds5_auto_exposure_roi_method.get (res : List Nat) : Except String region_of_interest :=
  if res.length < 4 * 2 then
    .error "Invalid result size!"
  else
    .ok { min_y := word16_le res 0
          max_y := word16_le res 1
          min_x := word16_le res 2
          max_x := word16_le res 3 }

/-- State of a `fisheye_auto_exposure_roi_method` (ds5.cpp lines 62-83):
the cached ROI `_roi`, plus the sequence of ROIs forwarded to the
auto-exposure mechanism. Modelled from the spec: the external
`auto_exposure_mechanism::update_auto_exposure_roi` receives the ROI as
metering-window input; the mechanism itself is out of scope, so it is
modelled as the log of forwarded ROIs. -/
structure fisheye_auto_exposure_roi_method where
  auto_exposure_updates : List region_of_interest
  roi : region_of_interest
deriving DecidableEq, Repr

/-- Initial state of `fisheye_auto_exposure_roi_method`: the member
`region_of_interest _roi{}` is value-initialized to the zero rectangle, and no
update has been forwarded. -/
def fisheye_auto_exposure_roi_method.init : fisheye_auto_exposure_roi_method :=
  ⟨[], ⟨0, 0, 0, 0⟩⟩

/-- `fisheye_auto_exposure_roi_method::set` (ds5.cpp lines 69-73): forwards
the ROI to the auto-exposure mechanism, then caches it in `_roi`. -/
def fisheye_auto_exposure_roi_method.set (s : fisheye_auto_exposure_roi_method)
    (roi : region_of_interest) : fisheye_auto_exposure_roi_method :=
  ⟨s.auto_exposure_updates ++ [roi], roi⟩

/-- `fisheye_auto_exposure_roi_method::get` (ds5.cpp lines 75-78): returns the
cached `_roi`. -/
def fisheye_auto_exposure_roi_method.get (s : fisheye_auto_exposure_roi_method) :
    region_of_interest :=
  s.roi

/-- Modelled from the spec: firmware versions are structured
`major.minor.patch.build` records (the `firmware_version` class is declared in
`types.h`, not under `src/`). -/
structure firmware_version where
  major : Nat
  minor : Nat
  patch : Nat
  build : Nat
deriving DecidableEq, Repr

/-- Modelled from the spec: `firmware_version` comparison is lexicographic
field by field (§3 Capability Profile). `fw_ge a b` is the C++ `a >= b`. -/
def firmware_version.fw_ge (a b : firmware_version) : Bool :=
  if a.major ≠ b.major then decide (b.major < a.major)
  else if a.minor ≠ b.minor then decide (b.minor < a.minor)
  else if a.patch ≠ b.patch then decide (b.patch < a.patch)
  else decide (b.build ≤ a.build)

/-- RS4xx product identifiers referenced by `ds5.cpp` (the numeric PID
constants live in `ds5-private.h`, not under `src/`; only their identity
matters to the gating logic, so they are modelled as an enumeration). -/
inductive rs4xx_pid where
  | RS400_PID
  | RS400_MM_PID
  | RS410_PID
  | RS410_MM_PID
  | RS415_PID
  | RS420_MM_PID
  | RS430_MM_PID
  | RS430_PID
  | RS430_MM_RGB_PID
  | RS435_RGB_PID
deriving DecidableEq, Repr

/-- Options registered on the depth endpoint inside the firmware-`5.5.8.0`
gate of the `ds5_camera` constructor (ds5.cpp lines 521-551). -/
inductive depth_option where
  | RS2_OPTION_OUTPUT_TRIGGER_ENABLED
  | RS2_OPTION_ERROR_POLLING_ENABLED
  | RS2_OPTION_PROJECTOR_TEMPERATURE
  | RS2_OPTION_ASIC_TEMPERATURE
deriving DecidableEq, Repr

/-- The firmware threshold `firmware_version("5.5.8.0")` of ds5.cpp line 521. -/
def fw_5_5_8_0 : firmware_version := ⟨5, 5, 8, 0⟩

/-- The depth-endpoint options registered by the `camera_fw_version >=
firmware_version("5.5.8.0")` block of the `ds5_camera` constructor
(ds5.cpp lines 521-551), in registration order: trigger output, error
polling, projector temperature (only for `RS410_PID`, `RS430_MM_PID`,
`RS430_PID`), ASIC temperature. Nothing is registered when the gate is
false. -/
def depth_fw_gated_options (camera_fw_version : firmware_version)
    (pid : rs4xx_pid) : List depth_option :=
  if camera_fw_version.fw_ge fw_5_5_8_0 then
    [.RS2_OPTION_OUTPUT_TRIGGER_ENABLED, .RS2_OPTION_ERROR_POLLING_ENABLED]
      ++ (if pid = .RS410_PID ∨ pid = .RS430_MM_PID ∨ pid = .RS430_PID then
            [.RS2_OPTION_PROJECTOR_TEMPERATURE]
          else [])
      ++ [.RS2_OPTION_ASIC_TEMPERATURE]
  else []

/-- Options registered on the fisheye endpoint by the version-gated block of
the `ds5_camera` constructor (ds5.cpp lines 615-630) and by
`register_auto_exposure_options` (lines 377-421). -/
inductive fisheye_option where
  | RS2_OPTION_ENABLE_AUTO_EXPOSURE
  | RS2_OPTION_AUTO_EXPOSURE_MODE
  | RS2_OPTION_AUTO_EXPOSURE_ANTIFLICKER_RATE
  | RS2_OPTION_GAIN
  | RS2_OPTION_EXPOSURE
deriving DecidableEq, Repr

/-- The kind of ROI method installed on an endpoint by the constructor. -/
inductive roi_method_kind where
  | ds5_auto_exposure_hw
  | fisheye_auto_exposure_sw
deriving DecidableEq, Repr

/-- Observable configuration of the fisheye endpoint produced by the
constructor: which options got registered, which ROI method (if any) was set,
and whether a full `auto_exposure_mechanism` was constructed. -/
structure fisheye_config where
  options : List fisheye_option
  roi_method : Option roi_method_kind
  has_auto_exposure_mechanism : Bool
deriving DecidableEq, Repr

/-- Option registrations performed by
`ds5_camera::register_auto_exposure_options` (ds5.cpp lines 377-421), in
order: enable-auto-exposure, auto-exposure mode, anti-flicker rate, and the
auto-disabling wrappers for gain and exposure. -/
def register_auto_exposure_options_list : List fisheye_option :=
  [.RS2_OPTION_ENABLE_AUTO_EXPOSURE,
   .RS2_OPTION_AUTO_EXPOSURE_MODE,
   .RS2_OPTION_AUTO_EXPOSURE_ANTIFLICKER_RATE,
   .RS2_OPTION_GAIN,
   .RS2_OPTION_EXPOSURE]

/-- The firmware threshold `firmware_version("5.6.3.0")` of ds5.cpp line 615. -/
def fw_5_6_3_0 : firmware_version := ⟨5, 6, 3, 0⟩

/-- The version-gated exposure setup of the fisheye endpoint (ds5.cpp lines
615-630): from firmware 5.6.3.0 the constructor calls
`register_auto_exposure_options` and sets a `fisheye_auto_exposure_roi_method`
backed by the constructed mechanism; otherwise it registers plain manual gain
and exposure options and sets no ROI method. -/
def configure_fisheye_exposure (camera_fw_version : firmware_version) : fisheye_config :=
  if camera_fw_version.fw_ge fw_5_6_3_0 then
    ⟨register_auto_exposure_options_list, some .fisheye_auto_exposure_sw, true⟩
  else
    ⟨[.RS2_OPTION_GAIN, .RS2_OPTION_EXPOSURE], none, false⟩

/-- The fisheye endpoint is created only for the motion-module product IDs
`RS430_MM_PID` and `RS420_MM_PID` (ds5.cpp line 599); its exposure controls
are then the version-gated `configure_fisheye_exposure`. -/
def fisheye_endpoint_config (pid : rs4xx_pid) (camera_fw_version : firmware_version) :
    Option fisheye_config :=
  if pid = .RS430_MM_PID ∨ pid = .RS420_MM_PID then
    some (configure_fisheye_exposure camera_fw_version)
  else
    none

/-- Enumerated UVC sub-interface record: product ID and interface index `mi`
(only the fields `ds5.cpp` consults). -/
structure uvc_device_info where
  pid : rs4xx_pid
  mi : Nat
deriving DecidableEq, Repr

/-- Modelled from the spec: `filter_by_mi` (declared outside `src/`) selects
the enumerated sub-interfaces whose interface index equals `mi` (the
"matching sub-interface filter" of §4.2 steps 4-5). -/
def filter_by_mi (infos : List uvc_device_info) (mi : Nat) : List uvc_device_info :=
  infos.filter (fun info => info.mi = mi)

/-- Which optional sub-devices the constructor ended up creating. -/
structure subdevice_topology where
  has_fisheye : Bool
  has_color : Bool
deriving DecidableEq, Repr

/-- The sub-device topology checks of the `ds5_camera` constructor: for
`RS430_MM_PID`/`RS420_MM_PID` the fisheye filter `filter_by_mi(dev_info, 3)`
must yield exactly one device (ds5.cpp lines 599-603), and for
`RS415_PID`/`RS430_MM_RGB_PID`/`RS435_RGB_PID` the color filter
`filter_by_mi(dev_info, 3)` must yield exactly one device (lines 713-718);
any other count throws `invalid_value_exception`, which propagates out of the
constructor so no device object is produced. `pid` is
`dev_info.front().pid`. -/
def ds5_camera_topology_check (pid : rs4xx_pid) (dev_info : List uvc_device_info) :
    Except String subdevice_topology :=
  if pid = .RS430_MM_PID ∨ pid = .RS420_MM_PID then
    if (filter_by_mi dev_info 3).length ≠ 1 then
      .error "RS450 model is expected to include a single fish-eye device!"
    else if pid = .RS415_PID ∨ pid = .RS430_MM_RGB_PID ∨ pid = .RS435_RGB_PID then
      if (filter_by_mi dev_info 3).length ≠ 1 then
        .error "RS4XX with RGB models are expected to include a single color device!"
      else .ok ⟨true, true⟩
    else .ok ⟨true, false⟩
  else if pid = .RS415_PID ∨ pid = .RS430_MM_RGB_PID ∨ pid = .RS435_RGB_PID then
    if (filter_by_mi dev_info 3).length ≠ 1 then
      .error "RS4XX with RGB models are expected to include a single color device!"
    else .ok ⟨false, true⟩
  else .ok ⟨false, false⟩

/-- 3-vector of (modelled) floats. -/
structure float3 where
  x : ℚ
  y : ℚ
  z : ℚ
deriving DecidableEq, Repr

/-- Component-wise vector addition. -/
def float3.add (a b : float3) : float3 :=
  ⟨a.x + b.x, a.y + b.y, a.z + b.z⟩

/-- Scalar multiple of a vector. -/
def float3.smul (q : ℚ) (v : float3) : float3 :=
  ⟨q * v.x, q * v.y, q * v.z⟩

/-- Vector negation. -/
def float3.neg (v : float3) : float3 :=
  ⟨-v.x, -v.y, -v.z⟩

/-- 3x3 matrix stored as three column vectors `x`, `y`, `z` (the storage
convention of librealsense's `float3x3`). -/
structure float3x3 where
  x : float3
  y : float3
  z : float3
deriving DecidableEq, Repr

/-- Matrix-vector product for the column-vector storage: the linear
combination of the columns by the vector's components. -/
def float3x3.mulVec (m : float3x3) (v : float3) : float3 :=
  ((float3.smul v.x m.x).add (float3.smul v.y m.y)).add (float3.smul v.z m.z)

/-- Matrix-matrix product: apply the left matrix to each column of the
right one. -/
def float3x3.mulMat (a b : float3x3) : float3x3 :=
  ⟨a.mulVec b.x, a.mulVec b.y, a.mulVec b.z⟩

/-- Matrix transpose. -/
def float3x3.transpose (m : float3x3) : float3x3 :=
  ⟨⟨m.x.x, m.y.x, m.z.x⟩, ⟨m.x.y, m.y.y, m.z.y⟩, ⟨m.x.z, m.y.z, m.z.z⟩⟩

/-- The identity 3x3 matrix. -/
def float3x3.identity : float3x3 :=
  ⟨⟨1, 0, 0⟩, ⟨0, 1, 0⟩, ⟨0, 0, 1⟩⟩

/-- A rigid pose `{rotation 3x3, translation 3-vector}` (librealsense `pose`,
declared in `types.h`). -/
structure pose where
  orientation : float3x3
  position : float3
deriving DecidableEq, Repr

/-- Modelled from the spec: pose composition (`operator*` on `pose`, declared
in `types.h`, not under `src/`) is the standard rigid-transform composition of
§3 — compose the rotations, rotate the inner translation by the outer
rotation, then add the outer translation. -/
def pose.mul (a b : pose) : pose :=
  ⟨a.orientation.mulMat b.orientation, (a.orientation.mulVec b.position).add a.position⟩

/-- Modelled from the spec: pose inversion (`inverse` on `pose`, declared in
`types.h`, not under `src/`) is the standard rigid-transform inverse of §3 —
transpose the rotation and negate the rotated translation. -/
def pose.inverse (a : pose) : pose :=
  ⟨a.orientation.transpose, (a.orientation.transpose.mulVec a.position).neg⟩

/-- The identity pose. -/
def pose.identity : pose :=
  ⟨float3x3.identity, ⟨0, 0, 0⟩⟩

/-- `rs2_extrinsics`: a flat 9-entry rotation array and a 3-entry translation
array, exactly as initialized by braced lists in
`ds5_camera::get_extrinsics`. -/
structure rs2_extrinsics where
  rotation : List ℚ
  translation : List ℚ
deriving DecidableEq, Repr

/-- The `is_left` lambda of `ds5_camera::get_extrinsics` (ds5.cpp line 790):
a stream is a left-imager stream when it is `RS2_STREAM_INFRARED` or
`RS2_STREAM_DEPTH`. -/
def is_left (s : rs2_stream) : Bool :=
  decide (s = .RS2_STREAM_INFRARED) || decide (s = .RS2_STREAM_DEPTH)

/-- `ds5_camera::get_extrinsics` (ds5.cpp lines 788-810). `baseline` is the
scalar `baseline` field of the validated coefficients table (`check_calib` and
the lazy fetch are external to the branch logic modelled here; the float
literal `0.001f` is modelled as `1/1000`). `none` models falling through to
`device::get_extrinsics` (the external base-class implementation). -/
def ds5_camera.get_extrinsics (baseline : ℚ) (from_subdevice : Nat)
    (from_stream : rs2_stream) (to_subdevice : Nat) (to_stream : rs2_stream) :
    Option rs2_extrinsics :=
  if from_subdevice = to_subdevice ∧ from_subdevice = 0 then
    if is_left to_stream && decide (from_stream = .RS2_STREAM_INFRARED2) then
      some ⟨[1, 0, 0, 0, 1, 0, 0, 0, 1], [-(1 / 1000) * baseline, 0, 0]⟩
    else if decide (to_stream = .RS2_STREAM_INFRARED2) && is_left from_stream then
      some ⟨[1, 0, 0, 0, 1, 0, 0, 0, 1], [(1 / 1000) * baseline, 0, 0]⟩
    else none
  else none

/-- A 3x3 rotation addressed by `rot(i, j)`, the storage of the motion-module
calibration table's extrinsics rotation (`ds5-private.h`, not under `src/`;
the nine entries are opaque scalars read through the two-index accessor). -/
structure float_3x3 where
  m00 : ℚ
  m01 : ℚ
  m02 : ℚ
  m10 : ℚ
  m11 : ℚ
  m12 : ℚ
  m20 : ℚ
  m21 : ℚ
  m22 : ℚ
deriving DecidableEq, Repr

/-- The two-index accessor `rot(i, j)`. -/
def float_3x3.rot (r : float_3x3) (i j : Nat) : ℚ :=
  match i, j with
  | 0, 0 => r.m00
  | 0, 1 => r.m01
  | 0, 2 => r.m02
  | 1, 0 => r.m10
  | 1, 1 => r.m11
  | 1, 2 => r.m12
  | 2, 0 => r.m20
  | 2, 1 => r.m21
  | 2, 2 => r.m22
  | _, _ => 0

/-- Modelled from the spec: the `imu_to_fisheye` extrinsics entry of the
motion-module calibration table (`ds5-private.h`, not under `src/`): a 3x3
rotation and a translation 3-vector. -/
structure extrinsics_table where
  rotation : float_3x3
  translation : float3
deriving DecidableEq, Repr

/-- The intermediate pose `ex` assembled by
`ds5_camera::get_device_position` for the motion-module sub-device
(ds5.cpp lines 208-209), with the entry sequence exactly as written in the
source: `{rot(0,0), rot(1,0), rot(2,0), rot(1,0), rot(1,1), rot(2,1),
rot(0,2), rot(1,2), rot(2,2)}` filling the three columns of the pose's
`float3x3`, and the table's translation. Note the fourth entry repeats
`rot(1,0)`. -/
def motion_module_ex_pose (motion_extr : extrinsics_table) : pose :=
  ⟨⟨⟨motion_extr.rotation.rot 0 0, motion_extr.rotation.rot 1 0, motion_extr.rotation.rot 2 0⟩,
    ⟨motion_extr.rotation.rot 1 0, motion_extr.rotation.rot 1 1, motion_extr.rotation.rot 2 1⟩,
    ⟨motion_extr.rotation.rot 0 2, motion_extr.rotation.rot 1 2, motion_extr.rotation.rot 2 2⟩⟩,
   motion_extr.translation⟩

/-- Definition following the spec's words (§3, §4.1), for comparison with
`motion_module_ex_pose`: the table's extrinsic pose itself, i.e. the
column-major fill of the pose's `float3x3` with the matrix whose `(i, j)`
entry is `rot(i, j)` — the fourth entry is `rot(0,1)`, not a repeat of
`rot(1,0)` — together with the table's translation. -/
def motion_module_ex_pose_spec (motion_extr : extrinsics_table) : pose :=
  ⟨⟨⟨motion_extr.rotation.rot 0 0, motion_extr.rotation.rot 1 0, motion_extr.rotation.rot 2 0⟩,
    ⟨motion_extr.rotation.rot 0 1, motion_extr.rotation.rot 1 1, motion_extr.rotation.rot 2 1⟩,
    ⟨motion_extr.rotation.rot 0 2, motion_extr.rotation.rot 1 2, motion_extr.rotation.rot 2 2⟩⟩,
   motion_extr.translation⟩

/-- Errors thrown by `ds5_camera::get_intrinsics` and
`ds5_camera::get_device_position`. -/
inductive ds5_error where
  | invalid_value (msg : String)
  | not_implemented (msg : String)
deriving DecidableEq, Repr

/-- The endpoint bookkeeping of a constructed `ds5_camera`: how many
endpoints `add_endpoint` registered, and the indices recorded for the depth,
fisheye and motion-module sub-devices. -/
structure ds5_camera_subdevices where
  endpoints_count : Nat
  depth_device_idx : Nat
  fisheye_device_idx : Nat
  motion_module_device_idx : Nat
deriving DecidableEq, Repr

/-- `ds5_camera::get_device_position` (ds5.cpp lines 186-215), with an
explicit recursion bound: the C++ recursion (the motion-module branch calls
`get_device_position(_fisheye_device_idx)`) has depth at most one because the
recursive call is answered by the index-bound or fisheye branches, so the
fuel case `0` is unreachable from the entry point `get_device_position`.
`fisheye_extrinsics` is the parsed
`get_fisheye_extrinsics_data(*_fisheye_extrinsics_raw)` and
`motion_module_extrinsics` the forced `*_motion_module_extrinsics_raw`
(the lazy fetch and parse are external to the branch logic modelled here). -/
def ds5_camera.get_device_position_fuel (st : ds5_camera_subdevices)
    (fisheye_extrinsics : pose) (motion_module_extrinsics : extrinsics_table) :
    Nat → Nat → Except ds5_error pose
  | 0, _ => .error (.not_implemented "Not Implemented")
  | fuel + 1, subdevice =>
    if st.endpoints_count ≤ subdevice then
      .error (.invalid_value ("Requested subdevice " ++ toString subdevice ++ " is unsupported."))
    else if subdevice = st.fisheye_device_idx then
      .ok fisheye_extrinsics.inverse
    else if subdevice = st.motion_module_device_idx then
      match ds5_camera.get_device_position_fuel st fisheye_extrinsics
          motion_module_extrinsics fuel st.fisheye_device_idx with
      | .error e => .error e
      | .ok fe_pose => .ok (fe_pose.mul (motion_module_ex_pose motion_module_extrinsics))
    else
      .error (.not_implemented "Not Implemented")

/-- `ds5_camera::get_device_position` at its entry point (fuel 2 suffices for
the depth-one recursion of the source). -/
def ds5_camera.get_device_position (st : ds5_camera_subdevices)
    (fisheye_extrinsics : pose) (motion_module_extrinsics : extrinsics_table)
    (subdevice : Nat) : Except ds5_error pose :=
  ds5_camera.get_device_position_fuel st fisheye_extrinsics motion_module_extrinsics 2 subdevice

/-- Calibration table identifiers (`ds::calibration_table_id`). The numeric
values are declared in `ds5-private.h` (not under `src/`); modelled from the
spec as an opaque enumeration with distinct command-parameter values. -/
inductive calibration_table_id where
  | coefficients_table_id
  | fisheye_calibration_id
deriving DecidableEq, Repr

/-- Modelled from the spec: the numeric command-parameter value of a
calibration table identifier (only distinctness is relied upon). -/
def calibration_table_id.val : calibration_table_id → Nat
  | .coefficients_table_id => 25
  | .fisheye_calibration_id => 40

/-- The command issued by `ds5_camera::get_raw_calibration_table`
(ds5.cpp lines 228-232): `GETINTCAL` with the table id as first parameter. -/
def ds5_camera.get_raw_calibration_table_cmd (table_id : calibration_table_id) : command :=
  ⟨.GETINTCAL, table_id.val, 0, 0, 0⟩

/-- The command issued by `ds5_camera::get_raw_fisheye_intrinsics_table`
(ds5.cpp lines 234-240): `MMER` with offset `0x84` and size `0x98`. -/
def ds5_camera.get_raw_fisheye_intrinsics_table_cmd : command :=
  ⟨.MMER, 0x84, 0x98, 0, 0⟩

/-- Modelled from the spec: the state of a memoizing `lazy<T>` thunk whose
deferred computation issues one hardware command (`lazy` is declared in
`types.h`, not under `src/`; §3 and §9 of the spec give its semantics: first
force runs the computation and caches, later forces return the cache and
never re-issue the command). `hw_log` is the list of commands issued so
far. -/
structure lazy_table_state where
  cache : Option (List Nat)
  hw_log : List command
deriving Repr

/-- Forcing a lazy raw-table thunk: a cached thunk returns the cache with no
channel traffic; an uncached thunk sends its command over the channel, logs
it, and caches the response. -/
def lazy_table_state.force (channel : command → List Nat) (cmd : command)
    (st : lazy_table_state) : List Nat × lazy_table_state :=
  match st.cache with
  | some v => (v, st)
  | none =>
    let v := channel cmd
    (v, ⟨some v, st.hw_log ++ [cmd]⟩)

/-- Stream profile (only the fields `ds5_camera::get_intrinsics` reads). -/
structure stream_profile where
  width : Nat
  height : Nat
deriving DecidableEq, Repr

/-- Mutable state relevant to `ds5_camera::get_intrinsics`: the endpoint
bookkeeping, the two lazy raw-table caches it may force
(`_coefficients_table_raw`, `_fisheye_intrinsics_raw`, installed by the
constructor at ds5.cpp lines 446-447), and the log of hardware commands
issued. -/
structure ds5_intrinsics_state where
  subdevices : ds5_camera_subdevices
  coefficients_table_raw : Option (List Nat)
  fisheye_intrinsics_raw : Option (List Nat)
  hw_log : List command

/-- `ds5_camera::get_intrinsics` (ds5.cpp lines 162-184).
`get_intrinsic_by_resolution` (declared in `ds5-private.h`, external to this
file's source) is passed in as a pure function; `channel` is the hardware
monitor's response function. The depth branch forces
`_coefficients_table_raw`, the fisheye branch `_fisheye_intrinsics_raw`; both
follow the lazy semantics of `lazy_table_state.force`. -/
def ds5_camera.get_intrinsics {α : Type}
    (get_intrinsic_by_resolution : List Nat → calibration_table_id → Nat → Nat → α)
    (channel : command → List Nat) (st : ds5_intrinsics_state)
    (subdevice : Nat) (profile : stream_profile) :
    Except ds5_error α × ds5_intrinsics_state :=
  if st.subdevices.endpoints_count ≤ subdevice then
    (.error (.invalid_value ("Requested subdevice " ++ toString subdevice ++ " is unsupported.")), st)
  else if subdevice = st.subdevices.depth_device_idx then
    let forced := lazy_table_state.force channel
      (ds5_camera.get_raw_calibration_table_cmd .coefficients_table_id)
      ⟨st.coefficients_table_raw, st.hw_log⟩
    (.ok (get_intrinsic_by_resolution forced.1 .coefficients_table_id profile.width profile.height),
     { st with coefficients_table_raw := forced.2.cache, hw_log := forced.2.hw_log })
  else if subdevice = st.subdevices.fisheye_device_idx then
    let forced := lazy_table_state.force channel
      ds5_camera.get_raw_fisheye_intrinsics_table_cmd
      ⟨st.fisheye_intrinsics_raw, st.hw_log⟩
    (.ok (get_intrinsic_by_resolution forced.1 .fisheye_calibration_id profile.width profile.height),
     { st with fisheye_intrinsics_raw := forced.2.cache, hw_log := forced.2.hw_log })
  else
    (.error (.not_implemented "Not Implemented"), st)

/-- `n` repeated calls of `ds5_camera::get_intrinsics` with the same
arguments, threading the state; returns the list of results in call order
and the final state. -/
def ds5_camera.get_intrinsics_iter {α : Type}
    (get_intrinsic_by_resolution : List Nat → calibration_table_id → Nat → Nat → α)
    (channel : command → List Nat) :
    Nat → ds5_intrinsics_state → Nat → stream_profile →
    List (Except ds5_error α) × ds5_intrinsics_state
  | 0, st, _, _ => ([], st)
  | n + 1, st, subdevice, profile =>
    let step := ds5_camera.get_intrinsics get_intrinsic_by_resolution channel st subdevice profile
    let rest := ds5_camera.get_intrinsics_iter get_intrinsic_by_resolution channel n step.2 subdevice profile
    (step.1 :: rest.1, rest.2)

/-- Claim C1: the notification decoder is a total pure function over all
integer raw codes; every returned notification has category hardware-error
and carries the input code as `raw_code`; code 0 maps to message "Success" at
error severity; the known fault codes map to their specific messages at error
severity; every other integer maps to message "Unknown error!" at severity
none. -/
theorem claim_C1_notification_decoder (value : Int) :
    (ds5_notification_decoder.decode value).category =
      .RS2_NOTIFICATION_CATEGORY_HARDWARE_ERROR
    ∧ (ds5_notification_decoder.decode value).raw_code = value
    ∧ ds5_notification_decoder.decode 0 =
        ⟨.RS2_NOTIFICATION_CATEGORY_HARDWARE_ERROR, 0, .RS2_LOG_SEVERITY_ERROR, "Success"⟩
    ∧ ds5_notification_decoder.decode ds5_notifications_types.hot_laser_power_reduce =
        ⟨.RS2_NOTIFICATION_CATEGORY_HARDWARE_ERROR, ds5_notifications_types.hot_laser_power_reduce,
         .RS2_LOG_SEVERITY_ERROR, "Hot laser power reduce"⟩
    ∧ ds5_notification_decoder.decode ds5_notifications_types.hot_laser_disable =
        ⟨.RS2_NOTIFICATION_CATEGORY_HARDWARE_ERROR, ds5_notifications_types.hot_laser_disable,
         .RS2_LOG_SEVERITY_ERROR, "Hot laser disable"⟩
    ∧ ds5_notification_decoder.decode ds5_notifications_types.flag_B_laser_disable =
        ⟨.RS2_NOTIFICATION_CATEGORY_HARDWARE_ERROR, ds5_notifications_types.flag_B_laser_disable,
         .RS2_LOG_SEVERITY_ERROR, "Flag B laser disable"⟩
    ∧ (value ≠ 0 →
        value ≠ ds5_notifications_types.hot_laser_power_reduce →
        value ≠ ds5_notifications_types.hot_laser_disable →
        value ≠ ds5_notifications_types.flag_B_laser_disable →
        ds5_notification_decoder.decode value =
          ⟨.RS2_NOTIFICATION_CATEGORY_HARDWARE_ERROR, value, .RS2_LOG_SEVERITY_NONE,
           "Unknown error!"⟩) := by
  refine ⟨?_, ?_, rfl, rfl, rfl, rfl, ?_⟩
  · unfold ds5_notification_decoder.decode
    split_ifs <;> rfl
  · unfold ds5_notification_decoder.decode
    split_ifs <;> rfl
  · intro h0 h1 h2 h3
    unfold ds5_notification_decoder.decode
    rw [if_neg h0, if_neg h1, if_neg h2, if_neg h3]

/-- Witness for claim C1 at the unrecognized code 9999. -/
theorem claim_C1_witness :
    ds5_notification_decoder.decode 9999 =
      ⟨.RS2_NOTIFICATION_CATEGORY_HARDWARE_ERROR, 9999, .RS2_LOG_SEVERITY_NONE,
       "Unknown error!"⟩ :=
  (claim_C1_notification_decoder 9999).2.2.2.2.2.2
    (by decide) (by decide) (by decide) (by decide)

/-- Claim C2: the hardware-backed ROI controller's `get` fails with a
short-response error on buffers holding fewer than 8 bytes, and otherwise
decodes the first four consecutive 16-bit little-endian words, in order, into
`min_y, max_y, min_x, max_x`; the 8-byte buffer `[10,0,20,0,30,0,40,0]`
decodes to `{min_y 10, max_y 20, min_x 30, max_x 40}`; `set` encodes the ROI
as the four command parameters in the order `min_y, max_y, min_x, max_x`. -/
theorem claim_C2_hw_roi (res : List Nat) (roi : region_of_interest) :
    (res.length < 8 →
      ds5_auto_exposure_roi_method.get res = .error "Invalid result size!")
    ∧ (8 ≤ res.length →
      ds5_auto_exposure_roi_method.get res =
        .ok ⟨word16_le res 2, word16_le res 0, word16_le res 3, word16_le res 1⟩)
    ∧ ds5_auto_exposure_roi_method.get [10, 0, 20, 0, 30, 0, 40, 0] =
        .ok ⟨30, 10, 40, 20⟩
    ∧ ds5_auto_exposure_roi_method.set roi =
        ⟨.SETAEROI, roi.min_y, roi.max_y, roi.min_x, roi.max_x⟩ := by
  refine ⟨?_, ?_, rfl, rfl⟩
  · intro h
    unfold ds5_auto_exposure_roi_method.get
    rw [if_pos]
    omega
  · intro h
    unfold ds5_auto_exposure_roi_method.get
    rw [if_neg]
    omega

/-- Witness for claim C2: a 3-byte buffer fails short, the specified 8-byte
buffer decodes to the specified rectangle. -/
theorem claim_C2_witness :
    ds5_auto_exposure_roi_method.get [1, 2, 3] = .error "Invalid result size!"
    ∧ ds5_auto_exposure_roi_method.get [10, 0, 20, 0, 30, 0, 40, 0] =
        .ok ⟨30, 10, 40, 20⟩ :=
  ⟨(claim_C2_hw_roi [1, 2, 3] ⟨0, 0, 0, 0⟩).1 (by decide),
   (claim_C2_hw_roi [10, 0, 20, 0, 30, 0, 40, 0] ⟨0, 0, 0, 0⟩).2.2.1⟩

/-- Claim C3: for the depth sub-device stream pair (subdevice 0 on both
sides), `get_extrinsics` returns identity rotation with translation
`[baseline/1000, 0, 0]` for the left→right direction and the exact negation
`[-(baseline/1000), 0, 0]` for the right→left direction of the same
coefficients table. -/
theorem claim_C3_extrinsics (baseline : ℚ) (s : rs2_stream) (hs : is_left s = true) :
    ds5_camera.get_extrinsics baseline 0 s 0 .RS2_STREAM_INFRARED2 =
      some ⟨[1, 0, 0, 0, 1, 0, 0, 0, 1], [(1 / 1000) * baseline, 0, 0]⟩
    ∧ ds5_camera.get_extrinsics baseline 0 .RS2_STREAM_INFRARED2 0 s =
      some ⟨[1, 0, 0, 0, 1, 0, 0, 0, 1], [-((1 / 1000) * baseline), 0, 0]⟩ := by
  cases s <;> simp_all [ds5_camera.get_extrinsics, is_left]

/-- Witness for claim C3 at baseline 50 with the depth stream as the left
member of the pair. -/
theorem claim_C3_witness :
    ds5_camera.get_extrinsics 50 0 .RS2_STREAM_DEPTH 0 .RS2_STREAM_INFRARED2 =
      some ⟨[1, 0, 0, 0, 1, 0, 0, 0, 1], [(1 / 1000 : ℚ) * 50, 0, 0]⟩
    ∧ ds5_camera.get_extrinsics 50 0 .RS2_STREAM_INFRARED2 0 .RS2_STREAM_DEPTH =
      some ⟨[1, 0, 0, 0, 1, 0, 0, 0, 1], [-((1 / 1000 : ℚ) * 50), 0, 0]⟩ :=
  claim_C3_extrinsics 50 .RS2_STREAM_DEPTH (by decide)

/-- Claim C4: on the software-backed ROI controller, `set(roi)` followed by
`get()` returns exactly `roi`, `set` forwards `roi` to the auto-exposure
mechanism as metering input, and before any `set` the controller returns the
zero rectangle. -/
theorem claim_C4_sw_roi (s : fisheye_auto_exposure_roi_method) (roi : region_of_interest) :
    (s.set roi).get = roi
    ∧ (s.set roi).auto_exposure_updates = s.auto_exposure_updates ++ [roi]
    ∧ fisheye_auto_exposure_roi_method.init.get = ⟨0, 0, 0, 0⟩ :=
  ⟨rfl, rfl, rfl⟩

/-- Claim C6: trigger-output control, error polling and ASIC temperature are
registered on the depth endpoint if and only if the firmware version is ≥
5.5.8.0 (so 5.5.7.0 enables none of them and 5.5.8.0 enables them exactly at
the boundary); projector temperature additionally requires the product ID to
be in `{RS410, RS430_MM, RS430}`; a false gate just omits the features. -/
theorem claim_C6_fw_gating (fw : firmware_version) (pid : rs4xx_pid) :
    (depth_option.RS2_OPTION_OUTPUT_TRIGGER_ENABLED ∈ depth_fw_gated_options fw pid ↔
      fw.fw_ge fw_5_5_8_0 = true)
    ∧ (depth_option.RS2_OPTION_ERROR_POLLING_ENABLED ∈ depth_fw_gated_options fw pid ↔
      fw.fw_ge fw_5_5_8_0 = true)
    ∧ (depth_option.RS2_OPTION_ASIC_TEMPERATURE ∈ depth_fw_gated_options fw pid ↔
      fw.fw_ge fw_5_5_8_0 = true)
    ∧ (depth_option.RS2_OPTION_PROJECTOR_TEMPERATURE ∈ depth_fw_gated_options fw pid ↔
      (fw.fw_ge fw_5_5_8_0 = true ∧
        (pid = .RS410_PID ∨ pid = .RS430_MM_PID ∨ pid = .RS430_PID)))
    ∧ depth_fw_gated_options ⟨5, 5, 7, 0⟩ pid = []
    ∧ depth_option.RS2_OPTION_OUTPUT_TRIGGER_ENABLED ∈ depth_fw_gated_options ⟨5, 5, 8, 0⟩ pid
    ∧ depth_option.RS2_OPTION_ERROR_POLLING_ENABLED ∈ depth_fw_gated_options ⟨5, 5, 8, 0⟩ pid
    ∧ depth_option.RS2_OPTION_ASIC_TEMPERATURE ∈ depth_fw_gated_options ⟨5, 5, 8, 0⟩ pid := by
  have h7 : firmware_version.fw_ge ⟨5, 5, 7, 0⟩ fw_5_5_8_0 = false := by decide
  have h8 : firmware_version.fw_ge ⟨5, 5, 8, 0⟩ fw_5_5_8_0 = true := by decide
  by_cases h : fw.fw_ge fw_5_5_8_0 = true
  · by_cases hp : pid = .RS410_PID ∨ pid = .RS430_MM_PID ∨ pid = .RS430_PID <;>
      simp [depth_fw_gated_options, h, h7, h8, hp]
  · by_cases hp : pid = .RS410_PID ∨ pid = .RS430_MM_PID ∨ pid = .RS430_PID <;>
      simp [depth_fw_gated_options, h, h7, h8, hp]

/-- Witness for claim C6: at the boundary firmware 5.5.8.0 with product
RS410, the trigger-output gate's iff yields registration, and the projector
temperature gate is satisfied. -/
theorem claim_C6_witness :
    depth_option.RS2_OPTION_OUTPUT_TRIGGER_ENABLED ∈
      depth_fw_gated_options ⟨5, 5, 8, 0⟩ .RS410_PID
    ∧ depth_option.RS2_OPTION_PROJECTOR_TEMPERATURE ∈
      depth_fw_gated_options ⟨5, 5, 8, 0⟩ .RS410_PID :=
  ⟨(claim_C6_fw_gating ⟨5, 5, 8, 0⟩ .RS410_PID).1.mpr (by decide),
   (claim_C6_fw_gating ⟨5, 5, 8, 0⟩ .RS410_PID).2.2.2.1.mpr ⟨by decide, Or.inl rfl⟩⟩

/-- Claim C7: for the motion-module product IDs, the fisheye endpoint's
exposure setup is version-gated at firmware 5.6.3.0: at or above it a full
auto-exposure mechanism is constructed and a software ROI controller backed
by it is attached; below it only plain manual gain and exposure options are
registered and no ROI method is set; other products get no fisheye
endpoint. -/
theorem claim_C7_fisheye_gating (pid : rs4xx_pid) (fw : firmware_version) :
    (pid = .RS430_MM_PID ∨ pid = .RS420_MM_PID →
      (fw.fw_ge fw_5_6_3_0 = true →
        fisheye_endpoint_config pid fw =
          some ⟨register_auto_exposure_options_list, some .fisheye_auto_exposure_sw, true⟩)
      ∧ (fw.fw_ge fw_5_6_3_0 = false →
        fisheye_endpoint_config pid fw =
          some ⟨[.RS2_OPTION_GAIN, .RS2_OPTION_EXPOSURE], none, false⟩))
    ∧ (¬(pid = .RS430_MM_PID ∨ pid = .RS420_MM_PID) →
      fisheye_endpoint_config pid fw = none) := by
  constructor
  · intro hp
    constructor
    · intro hfw
      simp [fisheye_endpoint_config, configure_fisheye_exposure, hp, hfw]
    · intro hfw
      simp [fisheye_endpoint_config, configure_fisheye_exposure, hp, hfw]
  · intro hp
    simp [fisheye_endpoint_config, hp]

/-- Witness for claim C7: product RS430_MM at firmware 5.6.3.0 gets the full
auto-exposure setup with a software ROI method; at 5.6.2.0 it gets only plain
gain/exposure and no ROI method. -/
theorem claim_C7_witness :
    fisheye_endpoint_config .RS430_MM_PID ⟨5, 6, 3, 0⟩ =
      some ⟨register_auto_exposure_options_list, some .fisheye_auto_exposure_sw, true⟩
    ∧ fisheye_endpoint_config .RS430_MM_PID ⟨5, 6, 2, 0⟩ =
      some ⟨[.RS2_OPTION_GAIN, .RS2_OPTION_EXPOSURE], none, false⟩ :=
  ⟨((claim_C7_fisheye_gating .RS430_MM_PID ⟨5, 6, 3, 0⟩).1 (Or.inl rfl)).1 (by decide),
   ((claim_C7_fisheye_gating .RS430_MM_PID ⟨5, 6, 2, 0⟩).1 (Or.inl rfl)).2 (by decide)⟩

/-- Claim C8: when the product ID indicates an integrated fisheye+motion
module (or an integrated color sub-device), the matching sub-interface filter
must yield exactly one device; every other count makes the constructor fail
with a topology error and no device object is produced (an `.ok` result under
either gate forces the count to be one). -/
theorem claim_C8_topology (pid : rs4xx_pid) (dev_info : List uvc_device_info) :
    (pid = .RS430_MM_PID ∨ pid = .RS420_MM_PID →
      (filter_by_mi dev_info 3).length ≠ 1 →
      ds5_camera_topology_check pid dev_info =
        .error "RS450 model is expected to include a single fish-eye device!")
    ∧ (pid = .RS415_PID ∨ pid = .RS430_MM_RGB_PID ∨ pid = .RS435_RGB_PID →
      (filter_by_mi dev_info 3).length ≠ 1 →
      ds5_camera_topology_check pid dev_info =
        .error "RS4XX with RGB models are expected to include a single color device!")
    ∧ (∀ t, ds5_camera_topology_check pid dev_info = .ok t →
      ((pid = .RS430_MM_PID ∨ pid = .RS420_MM_PID) ∨
       (pid = .RS415_PID ∨ pid = .RS430_MM_RGB_PID ∨ pid = .RS435_RGB_PID)) →
      (filter_by_mi dev_info 3).length = 1) := by
  refine ⟨?_, ?_, ?_⟩
  · intro hp hn
    cases hp <;> subst_vars <;> simp [ds5_camera_topology_check, hn]
  · intro hp hn
    rcases hp with hp | hp | hp <;> subst_vars <;> simp [ds5_camera_topology_check, hn]
  · intro t hok hp
    by_contra hn
    rcases hp with (hp | hp) | (hp | hp | hp) <;> subst_vars <;>
      simp [ds5_camera_topology_check, hn] at hok

/-- Witness for claim C8: an enumeration with no interface-3 sub-device makes
the RS430_MM constructor fail with the fisheye topology error, and the RS415
constructor fail with the color topology error. -/
theorem claim_C8_witness :
    ds5_camera_topology_check .RS430_MM_PID [⟨.RS430_MM_PID, 0⟩] =
      .error "RS450 model is expected to include a single fish-eye device!"
    ∧ ds5_camera_topology_check .RS415_PID [⟨.RS415_PID, 0⟩] =
      .error "RS4XX with RGB models are expected to include a single color device!" :=
  ⟨(claim_C8_topology .RS430_MM_PID [⟨.RS430_MM_PID, 0⟩]).1 (Or.inl rfl) (by decide),
   (claim_C8_topology .RS415_PID [⟨.RS415_PID, 0⟩]).2.1 (Or.inl rfl) (by decide)⟩

instance {ε α : Type} [DecidableEq ε] [DecidableEq α] : DecidableEq (Except ε α) := fun a b =>
  match a, b with
  | .error e, .error f =>
    if h : e = f then isTrue (congrArg Except.error h)
    else isFalse (fun hh => h (Except.error.inj hh))
  | .error _, .ok _ => isFalse (fun hh => Except.noConfusion hh)
  | .ok _, .error _ => isFalse (fun hh => Except.noConfusion hh)
  | .ok x, .ok y =>
    if h : x = y then isTrue (congrArg Except.ok h)
    else isFalse (fun hh => h (Except.ok.inj hh))

/-- Claim C10: for every subdevice index at or above the number of registered
endpoints, both `get_intrinsics` and `get_device_position` throw an
invalid-value error; for an in-range index that is neither the depth nor the
fisheye (nor, for poses, the motion-module) sub-device they throw a
not-implemented error rather than returning a default value. -/
theorem claim_C10_subdevice_errors {α : Type}
    (get_intrinsic_by_resolution : List Nat → calibration_table_id → Nat → Nat → α)
    (channel : command → List Nat) (ist : ds5_intrinsics_state)
    (st : ds5_camera_subdevices) (fe : pose) (mm : extrinsics_table)
    (subdevice : Nat) (profile : stream_profile) :
    (ist.subdevices.endpoints_count ≤ subdevice →
      (ds5_camera.get_intrinsics get_intrinsic_by_resolution channel ist subdevice profile).1 =
        .error (.invalid_value ("Requested subdevice " ++ toString subdevice ++ " is unsupported.")))
    ∧ (subdevice < ist.subdevices.endpoints_count →
       subdevice ≠ ist.subdevices.depth_device_idx →
       subdevice ≠ ist.subdevices.fisheye_device_idx →
      (ds5_camera.get_intrinsics get_intrinsic_by_resolution channel ist subdevice profile).1 =
        .error (.not_implemented "Not Implemented"))
    ∧ (st.endpoints_count ≤ subdevice →
      ds5_camera.get_device_position st fe mm subdevice =
        .error (.invalid_value ("Requested subdevice " ++ toString subdevice ++ " is unsupported.")))
    ∧ (subdevice < st.endpoints_count →
       subdevice ≠ st.fisheye_device_idx →
       subdevice ≠ st.motion_module_device_idx →
      ds5_camera.get_device_position st fe mm subdevice =
        .error (.not_implemented "Not Implemented")) := by
  refine ⟨?_, ?_, ?_, ?_⟩
  · intro h
    simp [ds5_camera.get_intrinsics, h]
  · intro h h1 h2
    simp [ds5_camera.get_intrinsics, Nat.not_le.mpr h, h1, h2]
  · intro h
    simp [ds5_camera.get_device_position, ds5_camera.get_device_position_fuel, h]
  · intro h h1 h2
    simp [ds5_camera.get_device_position, ds5_camera.get_device_position_fuel,
      Nat.not_le.mpr h, h1, h2]

/-- Witness for claim C10: with 4 endpoints (depth 0, fisheye 1, motion 2),
subdevice 7 is rejected as invalid, and in-range subdevice 3 gets
not-implemented from both queries. -/
theorem claim_C10_witness :
    (ds5_camera.get_intrinsics (fun raw _ w h => raw.length + w + h) (fun _ => [])
        ⟨⟨4, 0, 1, 2⟩, none, none, []⟩ 7 ⟨640, 480⟩).1 =
      .error (.invalid_value ("Requested subdevice " ++ toString 7 ++ " is unsupported."))
    ∧ (ds5_camera.get_intrinsics (fun raw _ w h => raw.length + w + h) (fun _ => [])
        ⟨⟨4, 0, 1, 2⟩, none, none, []⟩ 3 ⟨640, 480⟩).1 =
      .error (.not_implemented "Not Implemented")
    ∧ ds5_camera.get_device_position ⟨4, 0, 1, 2⟩ pose.identity
        ⟨⟨1, 0, 0, 0, 1, 0, 0, 0, 1⟩, ⟨0, 0, 0⟩⟩ 3 =
      .error (.not_implemented "Not Implemented") :=
  ⟨(claim_C10_subdevice_errors (fun raw _ w h => raw.length + w + h) (fun _ => [])
      ⟨⟨4, 0, 1, 2⟩, none, none, []⟩ ⟨4, 0, 1, 2⟩ pose.identity
      ⟨⟨1, 0, 0, 0, 1, 0, 0, 0, 1⟩, ⟨0, 0, 0⟩⟩ 7 ⟨640, 480⟩).1 (by decide),
   (claim_C10_subdevice_errors (fun raw _ w h => raw.length + w + h) (fun _ => [])
      ⟨⟨4, 0, 1, 2⟩, none, none, []⟩ ⟨4, 0, 1, 2⟩ pose.identity
      ⟨⟨1, 0, 0, 0, 1, 0, 0, 0, 1⟩, ⟨0, 0, 0⟩⟩ 3 ⟨640, 480⟩).2.1
      (by decide) (by decide) (by decide),
   (claim_C10_subdevice_errors (fun raw _ w h => raw.length + w + h) (fun _ => [])
      ⟨⟨4, 0, 1, 2⟩, none, none, []⟩ ⟨4, 0, 1, 2⟩ pose.identity
      ⟨⟨1, 0, 0, 0, 1, 0, 0, 0, 1⟩, ⟨0, 0, 0⟩⟩ 3 ⟨640, 480⟩).2.2.2
      (by decide) (by decide) (by decide)⟩

/-- Claim C9 (defect in the source): the intermediate extrinsic pose of the
motion-module branch of `get_device_position` is assembled with entry
`rot(1,0)` in two positions and never references `rot(0,1)`; the returned
pose is the fisheye pose composed with this pose. Per §3 of the spec the
composition should use the table's actual extrinsic pose
(`motion_module_ex_pose_spec`); on a table whose rotation has
`rot(0,1) = 5` and `rot(1,0) = 0` (identity otherwise) the code's result
differs from the spec composition, and the code's result is invariant under
a change of `rot(0,1)` while the spec composition is not. -/
theorem claim_C9_motion_rotation_defect :
    (∀ t : extrinsics_table,
      motion_module_ex_pose t =
        ⟨⟨⟨t.rotation.rot 0 0, t.rotation.rot 1 0, t.rotation.rot 2 0⟩,
          ⟨t.rotation.rot 1 0, t.rotation.rot 1 1, t.rotation.rot 2 1⟩,
          ⟨t.rotation.rot 0 2, t.rotation.rot 1 2, t.rotation.rot 2 2⟩⟩,
         t.translation⟩)
    ∧ (∀ (st : ds5_camera_subdevices) (fe : pose) (t : extrinsics_table),
        st.motion_module_device_idx < st.endpoints_count →
        st.motion_module_device_idx ≠ st.fisheye_device_idx →
        st.fisheye_device_idx < st.endpoints_count →
        ds5_camera.get_device_position st fe t st.motion_module_device_idx =
          .ok (fe.inverse.mul (motion_module_ex_pose t)))
    ∧ ds5_camera.get_device_position ⟨3, 0, 1, 2⟩ pose.identity
        ⟨⟨1, 5, 0, 0, 1, 0, 0, 0, 1⟩, ⟨0, 0, 0⟩⟩ 2 =
      .ok (motion_module_ex_pose ⟨⟨1, 5, 0, 0, 1, 0, 0, 0, 1⟩, ⟨0, 0, 0⟩⟩)
    ∧ motion_module_ex_pose ⟨⟨1, 5, 0, 0, 1, 0, 0, 0, 1⟩, ⟨0, 0, 0⟩⟩ =
        motion_module_ex_pose ⟨⟨1, 0, 0, 0, 1, 0, 0, 0, 1⟩, ⟨0, 0, 0⟩⟩
    ∧ motion_module_ex_pose_spec ⟨⟨1, 5, 0, 0, 1, 0, 0, 0, 1⟩, ⟨0, 0, 0⟩⟩ ≠
        motion_module_ex_pose_spec ⟨⟨1, 0, 0, 0, 1, 0, 0, 0, 1⟩, ⟨0, 0, 0⟩⟩
    ∧ ds5_camera.get_device_position ⟨3, 0, 1, 2⟩ pose.identity
        ⟨⟨1, 5, 0, 0, 1, 0, 0, 0, 1⟩, ⟨0, 0, 0⟩⟩ 2 ≠
      .ok (pose.identity.inverse.mul
        (motion_module_ex_pose_spec ⟨⟨1, 5, 0, 0, 1, 0, 0, 0, 1⟩, ⟨0, 0, 0⟩⟩)) := by
  have hgen : ∀ (st : ds5_camera_subdevices) (fe : pose) (t : extrinsics_table),
      st.motion_module_device_idx < st.endpoints_count →
      st.motion_module_device_idx ≠ st.fisheye_device_idx →
      st.fisheye_device_idx < st.endpoints_count →
      ds5_camera.get_device_position st fe t st.motion_module_device_idx =
        .ok (fe.inverse.mul (motion_module_ex_pose t)) := by
    intro st fe t h1 h2 h3
    simp [ds5_camera.get_device_position, ds5_camera.get_device_position_fuel,
      Nat.not_le.mpr h1, Nat.not_le.mpr h3, h2]
  have hid : ∀ p : pose, pose.identity.inverse.mul p = p := by
    intro p
    obtain ⟨⟨⟨a, b, c⟩, ⟨d, e, f⟩, ⟨g, h, i⟩⟩, ⟨u, v, w⟩⟩ := p
    simp [pose.identity, pose.inverse, pose.mul, float3x3.transpose, float3x3.identity,
      float3x3.mulMat, float3x3.mulVec, float3.smul, float3.add, float3.neg]
  have hcode : ds5_camera.get_device_position ⟨3, 0, 1, 2⟩ pose.identity
      ⟨⟨1, 5, 0, 0, 1, 0, 0, 0, 1⟩, ⟨0, 0, 0⟩⟩ 2 =
      .ok (pose.identity.inverse.mul
        (motion_module_ex_pose ⟨⟨1, 5, 0, 0, 1, 0, 0, 0, 1⟩, ⟨0, 0, 0⟩⟩)) :=
    hgen ⟨3, 0, 1, 2⟩ pose.identity ⟨⟨1, 5, 0, 0, 1, 0, 0, 0, 1⟩, ⟨0, 0, 0⟩⟩
      (by decide) (by decide) (by decide)
  rw [hid] at hcode
  refine ⟨fun t => rfl, hgen, hcode, rfl, ?_, ?_⟩
  · intro h
    have h5 := congrArg (fun p : pose => p.orientation.y.x) h
    norm_num [motion_module_ex_pose_spec, float_3x3.rot] at h5
  · intro h
    rw [hcode] at h
    have h5 := congrArg (fun r : Except ds5_error pose =>
      (r.toOption.getD pose.identity).orientation.y.x) h
    rw [hid] at h5
    norm_num [Except.toOption, Option.getD_some, motion_module_ex_pose,
      motion_module_ex_pose_spec, float_3x3.rot] at h5

/-- Witness for claim C9: the generic motion-module branch conclusion at the
concrete sub-device layout (3 endpoints, fisheye 1, motion 2), identity
fisheye extrinsics, and the failing table. -/
theorem claim_C9_witness :
    ds5_camera.get_device_position ⟨3, 0, 1, 2⟩ pose.identity
        ⟨⟨1, 5, 0, 0, 1, 0, 0, 0, 1⟩, ⟨0, 0, 0⟩⟩ 2 =
      .ok (pose.identity.inverse.mul
        (motion_module_ex_pose ⟨⟨1, 5, 0, 0, 1, 0, 0, 0, 1⟩, ⟨0, 0, 0⟩⟩)) :=
  claim_C9_motion_rotation_defect.2.1 ⟨3, 0, 1, 2⟩ pose.identity
    ⟨⟨1, 5, 0, 0, 1, 0, 0, 0, 1⟩, ⟨0, 0, 0⟩⟩ (by decide) (by decide) (by decide)

/-- Helper: with the coefficients table already cached, `get_intrinsics` on
the depth sub-device returns the parsed cache and leaves the state (and in
particular the command log) unchanged. -/
theorem get_intrinsics_depth_cached {α : Type}
    (gibr : List Nat → calibration_table_id → Nat → Nat → α)
    (channel : command → List Nat) (sub : ds5_camera_subdevices)
    (fish : Option (List Nat)) (log : List command) (profile : stream_profile)
    (v : List Nat) (hlt : sub.depth_device_idx < sub.endpoints_count) :
    ds5_camera.get_intrinsics gibr channel ⟨sub, some v, fish, log⟩
        sub.depth_device_idx profile =
      (.ok (gibr v .coefficients_table_id profile.width profile.height),
       ⟨sub, some v, fish, log⟩) := by
  unfold ds5_camera.get_intrinsics
  rw [if_neg (Nat.not_le.mpr hlt), if_pos rfl]
  rfl

/-- Helper: with the coefficients table cached, any number of repeated
`get_intrinsics` calls on the depth sub-device return the same value and
leave the state unchanged. -/
theorem get_intrinsics_iter_depth_cached {α : Type}
    (gibr : List Nat → calibration_table_id → Nat → Nat → α)
    (channel : command → List Nat) (sub : ds5_camera_subdevices)
    (fish : Option (List Nat)) (log : List command) (profile : stream_profile)
    (v : List Nat) (hlt : sub.depth_device_idx < sub.endpoints_count) :
    ∀ n : Nat,
      ds5_camera.get_intrinsics_iter gibr channel n ⟨sub, some v, fish, log⟩
          sub.depth_device_idx profile =
        (List.replicate n
          (.ok (gibr v .coefficients_table_id profile.width profile.height)),
         ⟨sub, some v, fish, log⟩)
  | 0 => rfl
  | n + 1 => by
    show (_ :: (ds5_camera.get_intrinsics_iter gibr channel n
        (ds5_camera.get_intrinsics gibr channel ⟨sub, some v, fish, log⟩
          sub.depth_device_idx profile).2 sub.depth_device_idx profile).1, _) = _
    rw [get_intrinsics_depth_cached gibr channel sub fish log profile v hlt]
    rw [get_intrinsics_iter_depth_cached gibr channel sub fish log profile v hlt n]
    rfl

/-- Helper: the first `get_intrinsics` call on the depth sub-device of a
fresh state issues exactly the `GETINTCAL` coefficients command and caches
the response. -/
theorem get_intrinsics_depth_fresh {α : Type}
    (gibr : List Nat → calibration_table_id → Nat → Nat → α)
    (channel : command → List Nat) (sub : ds5_camera_subdevices)
    (fish : Option (List Nat)) (profile : stream_profile)
    (hlt : sub.depth_device_idx < sub.endpoints_count) :
    ds5_camera.get_intrinsics gibr channel ⟨sub, none, fish, []⟩
        sub.depth_device_idx profile =
      (.ok (gibr (channel (ds5_camera.get_raw_calibration_table_cmd .coefficients_table_id))
          .coefficients_table_id profile.width profile.height),
       ⟨sub, some (channel (ds5_camera.get_raw_calibration_table_cmd .coefficients_table_id)),
        fish, [ds5_camera.get_raw_calibration_table_cmd .coefficients_table_id]⟩) := by
  unfold ds5_camera.get_intrinsics
  rw [if_neg (Nat.not_le.mpr hlt), if_pos rfl]
  rfl

/-- Claim C5: raw calibration tables are fetched lazily and memoized — a
cached thunk forces to its cache with no channel traffic, a fresh thunk
forced repeatedly issues its command exactly once and keeps returning the
first response; concretely, repeated `get_intrinsics` calls on the depth
sub-device of a fresh device return the same value every time while the
command log across all calls holds exactly one `GETINTCAL` command. -/
theorem claim_C5_lazy_memoization {α : Type}
    (gibr : List Nat → calibration_table_id → Nat → Nat → α)
    (channel : command → List Nat) (cmd : command) (lst : lazy_table_state)
    (ist : ds5_intrinsics_state) (profile : stream_profile) (n : Nat) :
    (∀ v, lst.cache = some v → lazy_table_state.force channel cmd lst = (v, lst))
    ∧ (lst.cache = none →
        (lazy_table_state.force channel cmd lst).1 = channel cmd
        ∧ (lazy_table_state.force channel cmd lst).2.hw_log = lst.hw_log ++ [cmd]
        ∧ lazy_table_state.force channel cmd (lazy_table_state.force channel cmd lst).2 =
            (channel cmd, (lazy_table_state.force channel cmd lst).2))
    ∧ (ist.coefficients_table_raw = none → ist.hw_log = [] →
        ist.subdevices.depth_device_idx < ist.subdevices.endpoints_count →
        (ds5_camera.get_intrinsics_iter gibr channel (n + 1) ist
            ist.subdevices.depth_device_idx profile).2.hw_log =
          [ds5_camera.get_raw_calibration_table_cmd .coefficients_table_id]
        ∧ (ds5_camera.get_intrinsics_iter gibr channel (n + 1) ist
            ist.subdevices.depth_device_idx profile).1 =
          List.replicate (n + 1)
            (.ok (gibr (channel (ds5_camera.get_raw_calibration_table_cmd .coefficients_table_id))
              .coefficients_table_id profile.width profile.height))) := by
  obtain ⟨cache, log⟩ := lst
  obtain ⟨sub, coeff, fish, ilog⟩ := ist
  refine ⟨?_, ?_, ?_⟩
  · intro v hv
    cases hv
    rfl
  · intro hv
    cases hv
    exact ⟨rfl, rfl, rfl⟩
  · intro h1 h2 hlt
    cases h1
    cases h2
    show ((ds5_camera.get_intrinsics_iter gibr channel (n + 1)
      ⟨sub, none, fish, []⟩ sub.depth_device_idx profile).2.hw_log = _) ∧ _
    have hstep :
        ds5_camera.get_intrinsics_iter gibr channel (n + 1) ⟨sub, none, fish, []⟩
            sub.depth_device_idx profile =
          (_ :: (ds5_camera.get_intrinsics_iter gibr channel n
            (ds5_camera.get_intrinsics gibr channel ⟨sub, none, fish, []⟩
              sub.depth_device_idx profile).2 sub.depth_device_idx profile).1,
           (ds5_camera.get_intrinsics_iter gibr channel n
            (ds5_camera.get_intrinsics gibr channel ⟨sub, none, fish, []⟩
              sub.depth_device_idx profile).2 sub.depth_device_idx profile).2) := rfl
    rw [hstep, get_intrinsics_depth_fresh gibr channel sub fish profile hlt,
      get_intrinsics_iter_depth_cached gibr channel sub fish
        [ds5_camera.get_raw_calibration_table_cmd .coefficients_table_id] profile
        (channel (ds5_camera.get_raw_calibration_table_cmd .coefficients_table_id)) hlt n]
    exact ⟨rfl, rfl⟩

/-- Witness for claim C5: a fresh two-endpoint device (depth index 0), a
channel answering `GETINTCAL` with the table id, and two repeated
`get_intrinsics` calls: both return the same value and the final command log
is the single `GETINTCAL` coefficients command. -/
theorem claim_C5_witness :
    (ds5_camera.get_intrinsics_iter (fun raw _ w h => raw.length + w + h)
        (fun c => [c.param1]) 2 ⟨⟨2, 0, 1, 1⟩, none, none, []⟩ 0 ⟨640, 480⟩).2.hw_log =
      [ds5_camera.get_raw_calibration_table_cmd .coefficients_table_id]
    ∧ (ds5_camera.get_intrinsics_iter (fun raw _ w h => raw.length + w + h)
        (fun c => [c.param1]) 2 ⟨⟨2, 0, 1, 1⟩, none, none, []⟩ 0 ⟨640, 480⟩).1 =
      List.replicate 2 (.ok 1121) :=
  (claim_C5_lazy_memoization (fun raw _ w h => raw.length + w + h) (fun c => [c.param1])
    ⟨.GETINTCAL, 25, 0, 0, 0⟩ ⟨none, []⟩ ⟨⟨2, 0, 1, 1⟩, none, none, []⟩ ⟨640, 480⟩ 1).2.2
    rfl rfl (by decide)

end DS5
